import Mathlib

/-!
Shallow embedding of the PSU link-training frontend, covering the Zustand
link store (`cln/app/stores/links.ts`), the toast store
(`cln/app/stores/toast.ts`), the QR code generator component
(`cln/app/components/QRCodeGenerator.tsx`) and the zod form validation
schemas (`cln/app/components/AppHeader.tsx`).

Modelling conventions:
* JavaScript `undefined`/`null`-able fields become `Option` fields.
* Timestamps and other opaque strings stay `String`; dayjs date values in
  form state are modelled as integer epoch values (`Int`), with `none`
  standing for an absent or `null` (falsy) value.
* An HTTP call is a parameter of type `HttpResult α`: either a typed payload
  or a failure carrying the optional server message
  (`error.response?.data?.message`).
* Zustand `set` with a partial object merges into the state, which the
  embedding writes as a structure update.
-/

namespace LinkStore

/-- Embeds `'ASC' | 'DESC'` sort order of `PaginationParams` (links.ts). -/
inductive SortOrder where
| ASC
| DESC
deriving DecidableEq, Repr

/-- Embeds `'safe' | 'moderate' | 'risky' | 'dangerous'` (links.ts `securityLevel`). -/
inductive SecurityLevel where
| safe
| moderate
| risky
| dangerous
deriving DecidableEq, Repr

/-- Embeds `User` interface from links.ts. -/
structure User where
  id : Nat
  username : String
  displayName : String
  email : Option String
  isAdmin : Bool
deriving DecidableEq, Repr

/-- Embeds `LinkEntry` interface from links.ts. -/
structure LinkEntry where
  id : Nat
  shortCode : String
  originalUrl : String
  description : Option String
  enabled : Bool
  pageTitle : Option String
  securityLevel : SecurityLevel
  startDateTime : Option String
  endDateTime : Option String
  withLogo : Bool
  qrSubtitle : Option String
  accessCount : Nat
  createdAt : String
  updatedAt : String
  securityLevelUpdatedAt : Option String
  createdBy : User
  createdById : Nat
deriving DecidableEq, Repr

/-- Embeds `LinkAccessResponse` interface from links.ts. -/
structure LinkAccessResponse where
  id : Nat
  shortCode : String
  originalUrl : String
  description : Option String
  pageTitle : Option String
  securityLevel : SecurityLevel
  securityLevelUpdatedAt : Option String
  isActive : Bool
  accessCount : Nat
deriving DecidableEq, Repr

/-- Embeds `LinkStats` interface from links.ts. -/
structure LinkStats where
  id : Nat
  shortCode : String
  accessCount : Nat
  createdAt : String
  updatedAt : String
  isActive : Bool
deriving DecidableEq, Repr

/-- Embeds `CreateLinkDto` interface from links.ts. -/
structure CreateLinkDto where
  originalUrl : String
  description : Option String
  startDateTime : Option String
  endDateTime : Option String
  withLogo : Option Bool
  qrSubtitle : Option String
deriving DecidableEq, Repr

/-- Embeds `UpdateLinkDto` interface from links.ts. -/
structure UpdateLinkDto where
  originalUrl : Option String
  description : Option String
  enabled : Option Bool
  startDateTime : Option String
  endDateTime : Option String
  withLogo : Option Bool
  qrSubtitle : Option String
deriving DecidableEq, Repr

/-- Embeds `PaginationParams` from links.ts: all four keys optional; a `none`
field models a key absent from the object. -/
structure PaginationParams where
  max : Option Nat
  offset : Option Nat
  sort : Option String
  order : Option SortOrder
deriving DecidableEq, Repr

/-- The data fields of the `LinkState` zustand store (links.ts). -/
structure LinkState where
  links : List LinkEntry
  currentLink : Option LinkEntry
  isLoading : Bool
  error : Option String
  totalCount : Nat
  pagination : PaginationParams
deriving DecidableEq, Repr

/-- Initial store state (links.ts lines 139-149). -/
def initialState : LinkState :=
  { links := []
    currentLink := none
    isLoading := false
    error := none
    totalCount := 0
    pagination :=
      { max := some 50
        offset := some 0
        sort := some "createdAt"
        order := some SortOrder.DESC } }

/-- Outcome of one HTTP call: success payload, or failure with the optional
server message found at `error.response?.data?.message`. -/
inductive HttpResult (α : Type) where
| ok (value : α)
| err (message : Option String)
deriving DecidableEq, Repr

/-- JavaScript `msg || fallback` used in every catch block: the fallback is
taken when the message is absent or falsy (the empty string). -/
def serverMessageOr (msg : Option String) (fallback : String) : String :=
  match msg with
  | some m => if m = "" then fallback else m
  | none => fallback

/-- Common first step of every store operation:
`set(\x7b isLoading: true, error: null \x7d)`. -/
def startLoading (s : LinkState) : LinkState :=
  { s with isLoading := true, error := none }

/-- Common catch block:
`set(\x7b isLoading: false, error: errorMessage \x7d)`. -/
def failWith (fallback : String) (msg : Option String) (s : LinkState) :
    LinkState :=
  { s with isLoading := false, error := some (serverMessageOr msg fallback) }

/-- Embeds `createLink` (links.ts lines 152-170): POST `/links`; on success the
returned record is prepended to `links`. -/
def createLink (_data : CreateLinkDto) (r : HttpResult LinkEntry)
    (s : LinkState) : LinkState :=
  let s1 := startLoading s
  match r with
  | HttpResult.ok newLink =>
      { s1 with links := newLink :: s1.links, isLoading := false }
  | HttpResult.err m => failWith "Failed to create link" m s1

/-- Embeds `getUserLinks` (links.ts lines 173-191): GET `/links` with
`params || get().pagination` as query; on success replaces `links` and
stores the query params as the new pagination. -/
def getUserLinks (params : Option PaginationParams)
    (r : HttpResult (List LinkEntry)) (s : LinkState) : LinkState :=
  let s1 := startLoading s
  let queryParams := params.getD s1.pagination
  match r with
  | HttpResult.ok data =>
      { s1 with links := data, isLoading := false, pagination := queryParams }
  | HttpResult.err m => failWith "Failed to fetch links" m s1

/-- Embeds `getLinkById` (links.ts lines 194-211): GET `/links/:id`; on success the
record becomes `currentLink`. -/
def getLinkById (_id : Nat) (r : HttpResult LinkEntry) (s : LinkState) :
    LinkState :=
  let s1 := startLoading s
  match r with
  | HttpResult.ok link =>
      { s1 with currentLink := some link, isLoading := false }
  | HttpResult.err m => failWith "Failed to fetch link" m s1

/-- Embeds `updateLink` (links.ts lines 214-235): PUT `/links/:id`; on success
every list entry with matching id is replaced by the returned record, and
`currentLink` likewise when its id matches. -/
def updateLink (id : Nat) (_data : UpdateLinkDto) (r : HttpResult LinkEntry)
    (s : LinkState) : LinkState :=
  let s1 := startLoading s
  match r with
  | HttpResult.ok updatedLink =>
      { s1 with
        links := s1.links.map fun link =>
          if link.id = id then updatedLink else link
        currentLink :=
          match s1.currentLink with
          | some c => if c.id = id then some updatedLink else some c
          | none => none
        isLoading := false }
  | HttpResult.err m => failWith "Failed to update link" m s1

/-- Embeds `deleteLink` (links.ts lines 238-254): DELETE `/links/:id`; on success
entries with matching id are filtered out and a matching `currentLink` is
cleared. -/
def deleteLink (id : Nat) (r : HttpResult Unit) (s : LinkState) : LinkState :=
  let s1 := startLoading s
  match r with
  | HttpResult.ok _ =>
      { s1 with
        links := s1.links.filter fun link => link.id ≠ id
        currentLink :=
          match s1.currentLink with
          | some c => if c.id = id then none else some c
          | none => none
        isLoading := false }
  | HttpResult.err m => failWith "Failed to delete link" m s1

/-- Embeds `transferOwnership` (links.ts lines 257-281): PUT `/links/:id/transfer`;
success patches the list and `currentLink` exactly like `updateLink`. -/
def transferOwnership (id : Nat) (_newOwnerId : Nat)
    (r : HttpResult LinkEntry) (s : LinkState) : LinkState :=
  let s1 := startLoading s
  match r with
  | HttpResult.ok updatedLink =>
      { s1 with
        links := s1.links.map fun link =>
          if link.id = id then updatedLink else link
        currentLink :=
          match s1.currentLink with
          | some c => if c.id = id then some updatedLink else some c
          | none => none
        isLoading := false }
  | HttpResult.err m => failWith "Failed to transfer ownership" m s1

/-- Embeds `getLinkStats` (links.ts lines 284-295): GET `/links/:id/stats`; the
payload is returned to the caller, state only stops loading. -/
def getLinkStats (_id : Nat) (r : HttpResult LinkStats) (s : LinkState) :
    LinkState :=
  let s1 := startLoading s
  match r with
  | HttpResult.ok _ => { s1 with isLoading := false }
  | HttpResult.err m => failWith "Failed to fetch stats" m s1

/-- Embeds `accessLink` (links.ts lines 298-311): GET `/links/access/:shortCode`;
state only stops loading on success. -/
def accessLink (_shortCode : String) (r : HttpResult LinkAccessResponse)
    (s : LinkState) : LinkState :=
  let s1 := startLoading s
  match r with
  | HttpResult.ok _ => { s1 with isLoading := false }
  | HttpResult.err m => failWith "Link not found" m s1

/-- Embeds `getRedirectUrl` (links.ts lines 314-327): GET
`/links/redirect/:shortCode`; state only stops loading on success. -/
def getRedirectUrl (_shortCode : String) (r : HttpResult String)
    (s : LinkState) : LinkState :=
  let s1 := startLoading s
  match r with
  | HttpResult.ok _ => { s1 with isLoading := false }
  | HttpResult.err m => failWith "Link not found" m s1

/-- Embeds `searchAllLinks` (links.ts lines 330-343): GET `/links/admin/search`;
the result list is returned to the caller, state only stops loading. -/
def searchAllLinks (_params : Option PaginationParams)
    (r : HttpResult (List LinkEntry)) (s : LinkState) : LinkState :=
  let s1 := startLoading s
  match r with
  | HttpResult.ok _ => { s1 with isLoading := false }
  | HttpResult.err m => failWith "Failed to search links" m s1

/-- Embeds `disableLinkByShortCode` (links.ts lines 346-368): PUT
`/links/admin/:shortCode/disable`; on success list entries with matching
short code are replaced (`currentLink` untouched). -/
def disableLinkByShortCode (shortCode : String) (r : HttpResult LinkEntry)
    (s : LinkState) : LinkState :=
  let s1 := startLoading s
  match r with
  | HttpResult.ok updatedLink =>
      { s1 with
        links := s1.links.map fun link =>
          if link.shortCode = shortCode then updatedLink else link
        isLoading := false }
  | HttpResult.err m => failWith "Failed to disable link" m s1

/-- Embeds `viewLinkByShortCode` (links.ts lines 371-384): GET
`/links/admin/:shortCode/view`; state only stops loading on success. -/
def viewLinkByShortCode (_shortCode : String) (r : HttpResult LinkEntry)
    (s : LinkState) : LinkState :=
  let s1 := startLoading s
  match r with
  | HttpResult.ok _ => { s1 with isLoading := false }
  | HttpResult.err m => failWith "Failed to view link" m s1

/-- Embeds `setCurrentLink` (links.ts lines 387-389). -/
def setCurrentLink (link : Option LinkEntry) (s : LinkState) : LinkState :=
  { s with currentLink := link }

/-- The object spread `\x7b ...state.pagination, ...params \x7d`: keys present
in `params` overwrite, absent keys keep the previous value. -/
def mergePagination (prev p : PaginationParams) : PaginationParams :=
  { max := match p.max with | some v => some v | none => prev.max
    offset := match p.offset with | some v => some v | none => prev.offset
    sort := match p.sort with | some v => some v | none => prev.sort
    order := match p.order with | some v => some v | none => prev.order }

/-- Embeds `setPagination` (links.ts lines 391-395). -/
def setPagination (params : PaginationParams) (s : LinkState) : LinkState :=
  { s with pagination := mergePagination s.pagination params }

/-- Embeds `clearError` (links.ts lines 397-399). -/
def clearError (s : LinkState) : LinkState :=
  { s with error := none }

/-- Embeds `reset` (links.ts lines 401-415). -/
def reset (_s : LinkState) : LinkState := initialState

/-- Shape of the snapshot the persist middleware writes to storage. -/
structure PersistedSnapshot where
  pagination : PaginationParams
deriving DecidableEq, Repr

/-- The persist middleware's state selection (links.ts lines 423-425,
the function configured to pick what is written to storage):
`(state) => (\x7b pagination: state.pagination \x7d)`. -/
def persistSlice (s : LinkState) : PersistedSnapshot :=
  { pagination := s.pagination }

end LinkStore

namespace Toast

/-- Embeds `ToastSeverity` (toast.ts). -/
inductive ToastSeverity where
| success
| info
| warning
| error
deriving DecidableEq, Repr

/-- Embeds `ToastPosition` (toast.ts). -/
inductive ToastPosition where
| topLeft
| topCenter
| topRight
| bottomLeft
| bottomCenter
| bottomRight
deriving DecidableEq, Repr

/-- Data fields of the toast zustand store (toast.ts). `open` is a Lean
keyword, so the flag is called `isOpen`; timeout handles are `Nat` ids. -/
structure ToastState where
  isOpen : Bool
  message : String
  severity : ToastSeverity
  duration : Nat
  position : ToastPosition
  timeoutId : Option Nat
deriving DecidableEq, Repr

/-- Initial toast store state (toast.ts lines 32-37). -/
def initialToastState : ToastState :=
  { isOpen := false
    message := ""
    severity := ToastSeverity.info
    duration := 5000
    position := ToastPosition.bottomRight
    timeoutId := none }

/-- The browser timer table: pending timer ids and a fresh-id counter.
`setTimeout` hands out `nextId` and marks it pending; `clearTimeout`
removes an id from the pending set. -/
structure TimerEnv where
  nextId : Nat
  active : List Nat
deriving DecidableEq, Repr

/-- Embeds `setTimeout(...)`: returns the new timer id and the grown table. -/
def setTimeout (e : TimerEnv) : Nat × TimerEnv :=
  (e.nextId, { nextId := e.nextId + 1, active := e.nextId :: e.active })

/-- Embeds `clearTimeout(id)`: the timer with that id is no longer pending. -/
def clearTimeout (id : Nat) (e : TimerEnv) : TimerEnv :=
  { e with active := e.active.filter fun t => t ≠ id }

/-- Embeds `showToast` (toast.ts lines 39-63): first `set` clears any existing
timeout and nulls `timeoutId`, then a new timeout is created, then the
second `set` installs the message, severity, duration, position and the
new timer id with `open: true`. -/
def showToast (message : String) (severity : ToastSeverity) (duration : Nat)
    (position : ToastPosition) (s : ToastState) (e : TimerEnv) :
    ToastState × TimerEnv :=
  let e1 :=
    match s.timeoutId with
    | some t => clearTimeout t e
    | none => e
  let s1 := { s with timeoutId := none }
  let (tid, e2) := setTimeout e1
  ({ s1 with
      isOpen := true
      message := message
      severity := severity
      duration := duration
      position := position
      timeoutId := some tid }, e2)

/-- Embeds `hideToast` (toast.ts lines 65-73): clears any existing timeout and
merges `\x7b open: false, timeoutId: null \x7d` into the state. -/
def hideToast (s : ToastState) (e : TimerEnv) : ToastState × TimerEnv :=
  let e1 :=
    match s.timeoutId with
    | some t => clearTimeout t e
    | none => e
  ({ s with isOpen := false, timeoutId := none }, e1)

/-- Consistency between the store and the timer table: the pending timers
are exactly the one recorded in `timeoutId` (so at most one), and any
recorded id was previously handed out. -/
def timersConsistent (s : ToastState) (e : TimerEnv) : Prop :=
  e.active = s.timeoutId.toList ∧ ∀ t, s.timeoutId = some t → t < e.nextId

end Toast

namespace QR

/-- Embeds `'L' | 'M' | 'Q' | 'H'` (QRCodeGenerator.tsx). -/
inductive QRErrorCorrectionLevel where
| L
| M
| Q
| H
deriving DecidableEq, Repr

/-- The inputs `generateQRCode` reads when it runs: the component state
`size` and `errorCorrectionLevel`, the props-derived `link.withLogo` and
`link.qrSubtitle`, and the prop `fullUrl` (the encoded target URL). -/
structure QRInputs where
  size : Nat
  errorCorrectionLevel : QRErrorCorrectionLevel
  withLogo : Bool
  qrSubtitle : Option String
  fullUrl : String
deriving DecidableEq, Repr

/-- The dependency array of the regeneration effect
(QRCodeGenerator.tsx line 112):
`[size, errorCorrectionLevel, link.withLogo, link.qrSubtitle]`. -/
def qrEffectDeps (p : QRInputs) :
    Nat × QRErrorCorrectionLevel × Bool × Option String :=
  (p.size, p.errorCorrectionLevel, p.withLogo, p.qrSubtitle)

/-- React effect semantics across one re-render: the effect body runs again
exactly when the dependency array changed. -/
def qrEffectReruns (old new : QRInputs) : Bool :=
  decide (qrEffectDeps old ≠ qrEffectDeps new)

/-- What one re-render does to the QR image: when the effect re-runs,
`generateQRCode` executes with the new input values; otherwise nothing
is regenerated. -/
def qrRenderStep (old new : QRInputs) : Option QRInputs :=
  if qrEffectReruns old new then some new else none

/-- The aspects of the browser environment `handleCopy` depends on. -/
structure CopyEnv where
  canvasPresent : Bool
  toBlobThrowsSync : Bool
  blobOk : Bool
  clipboardImageOk : Bool
  clipboardTextOk : Bool
deriving DecidableEq, Repr

/-- Observable outcome of one `handleCopy` invocation. -/
inductive CopyOutcome where
| noAction
| imageCopied
| urlCopied
| errorToast
| unhandledRejection
deriving DecidableEq, Repr

/-- Embeds `handleCopy` (QRCodeGenerator.tsx lines 129-152), with JavaScript
control flow modelled faithfully: `canvas.toBlob(cb)` returns at once and
invokes its async callback later, so the surrounding `try/catch` only
catches a synchronous throw from the `toBlob` call itself. A failure
inside the callback — a null blob (the `throw new Error(...)` branch) or a
rejected `navigator.clipboard.write` — rejects the callback's promise,
which nothing awaits or catches. -/
def handleCopy (env : CopyEnv) : CopyOutcome :=
  if env.canvasPresent = false then CopyOutcome.noAction
  else if env.toBlobThrowsSync then
    -- the catch block runs: fall back to copying the plain URL
    if env.clipboardTextOk then CopyOutcome.urlCopied
    else CopyOutcome.errorToast
  else if env.blobOk then
    if env.clipboardImageOk then CopyOutcome.imageCopied
    else CopyOutcome.unhandledRejection
  else CopyOutcome.unhandledRejection

end QR

namespace Forms

/-- A raw form submission as the zod schemas see it: a `none` field models
a key that is absent or `null`. Date values are modelled as integer epoch
values; `dayjs(a).isBefore(dayjs(b))` is `a < b`. -/
structure LinkFormInput where
  originalUrl : Option String
  description : Option String
  enabled : Option Bool
  startDateTime : Option Int
  endDateTime : Option Int
  withLogo : Option Bool
  qrSubtitle : Option String
deriving DecidableEq, Repr

/-- The `.refine` shared by both schemas (AppHeader.tsx lines 336-347 and
908-919): when both date fields hold truthy values, start must be strictly
before end. -/
def dateRangeOk (inp : LinkFormInput) : Bool :=
  match inp.startDateTime, inp.endDateTime with
  | some a, some b => decide (a < b)
  | _, _ => true

/-- Embeds `linkSchema` (AppHeader.tsx lines 326-347), parameterised by the URL
validity test `.url()` delegates to: `originalUrl` must be a string of
length at least 1 that passes the URL test; `description`, the two
`z.any().optional()` dates, `withLogo` and `qrSubtitle` are optional; then
the date-range refinement applies. -/
def linkSchemaAccepts (isValidUrl : String → Bool) (inp : LinkFormInput) :
    Bool :=
  match inp.originalUrl with
  | some u => decide (1 ≤ u.length) && isValidUrl u && dateRangeOk inp
  | none => false

/-- Embeds `editLinkSchema` (AppHeader.tsx lines 897-919): like `linkSchema`, but
`enabled` and `withLogo` are bare `z.boolean()` fields, so they must be
present. -/
def editLinkSchemaAccepts (isValidUrl : String → Bool)
    (inp : LinkFormInput) : Bool :=
  match inp.originalUrl with
  | some u =>
      decide (1 ≤ u.length) && isValidUrl u && inp.enabled.isSome &&
        inp.withLogo.isSome && dateRangeOk inp
  | none => false

/-- Modelled from the spec, for comparison with the code's schemas: the
acceptance condition the claim states for both schemas — `originalUrl` is
a non-empty string that parses as an absolute URL, and when both dates are
present the start is strictly before the end, with no further
constraints from the other fields. -/
def specFormAccepts (isValidUrl : String → Bool) (inp : LinkFormInput) :
    Bool :=
  match inp.originalUrl with
  | some u => (!(u = "")) && isValidUrl u && dateRangeOk inp
  | none => false

/-- A concrete URL test for closed witnesses and counterexamples. -/
def sampleUrlCheck (s : String) : Bool :=
  s = "https://example.com" || s = "https://www.psu.ac.th"

end Forms

namespace Samples

/-- Concrete user for witnesses. -/
def sampleUser : LinkStore.User :=
  { id := 7
    username := "alice"
    displayName := "Alice"
    email := none
    isAdmin := false }

/-- Concrete link record for witnesses. -/
def sampleLink : LinkStore.LinkEntry :=
  { id := 1
    shortCode := "abc123"
    originalUrl := "https://example.com"
    description := none
    enabled := true
    pageTitle := none
    securityLevel := LinkStore.SecurityLevel.safe
    startDateTime := none
    endDateTime := none
    withLogo := false
    qrSubtitle := none
    accessCount := 0
    createdAt := "t0"
    updatedAt := "t0"
    securityLevelUpdatedAt := none
    createdBy := sampleUser
    createdById := 7 }

/-- A second concrete link with a distinct id. -/
def sampleLink2 : LinkStore.LinkEntry :=
  { sampleLink with id := 2, shortCode := "xyz789" }

/-- Concrete store state holding two links for witnesses. -/
def sampleState : LinkStore.LinkState :=
  { links := [sampleLink, sampleLink2]
    currentLink := some sampleLink
    isLoading := false
    error := none
    totalCount := 2
    pagination := LinkStore.initialState.pagination }

/-- Concrete creation payload for witnesses. -/
def sampleDto : LinkStore.CreateLinkDto :=
  { originalUrl := "https://example.com"
    description := none
    startDateTime := none
    endDateTime := none
    withLogo := none
    qrSubtitle := none }

/-- Concrete update payload for witnesses. -/
def sampleUpdateDto : LinkStore.UpdateLinkDto :=
  { originalUrl := some "https://www.psu.ac.th"
    description := none
    enabled := none
    startDateTime := none
    endDateTime := none
    withLogo := none
    qrSubtitle := none }

end Samples

namespace LinkStore

/-- The frame a failed call must respect: the data fields of `t` agree
with those of the pre-call state `s`. -/
def failFrame (s t : LinkState) : Prop :=
  t.links = s.links ∧ t.currentLink = s.currentLink ∧
    t.totalCount = s.totalCount ∧ t.pagination = s.pagination

/-- C1: for every Link Store operation, a failed HTTP call leaves `links`,
`currentLink`, `totalCount` and `pagination` exactly as before the call,
and sets `error` to the server-provided message when one is present (a
non-empty message string), otherwise to that operation's generic fallback
string. -/
theorem C1_failure_preserves_state :
    (∀ (d : CreateLinkDto) (m : Option String) (s : LinkState),
      failFrame s (createLink d (HttpResult.err m) s) ∧
        (createLink d (HttpResult.err m) s).error =
          some (serverMessageOr m "Failed to create link")) ∧
    (∀ (p : Option PaginationParams) (m : Option String) (s : LinkState),
      failFrame s (getUserLinks p (HttpResult.err m) s) ∧
        (getUserLinks p (HttpResult.err m) s).error =
          some (serverMessageOr m "Failed to fetch links")) ∧
    (∀ (id : Nat) (m : Option String) (s : LinkState),
      failFrame s (getLinkById id (HttpResult.err m) s) ∧
        (getLinkById id (HttpResult.err m) s).error =
          some (serverMessageOr m "Failed to fetch link")) ∧
    (∀ (id : Nat) (d : UpdateLinkDto) (m : Option String) (s : LinkState),
      failFrame s (updateLink id d (HttpResult.err m) s) ∧
        (updateLink id d (HttpResult.err m) s).error =
          some (serverMessageOr m "Failed to update link")) ∧
    (∀ (id : Nat) (m : Option String) (s : LinkState),
      failFrame s (deleteLink id (HttpResult.err m) s) ∧
        (deleteLink id (HttpResult.err m) s).error =
          some (serverMessageOr m "Failed to delete link")) ∧
    (∀ (id newOwnerId : Nat) (m : Option String) (s : LinkState),
      failFrame s (transferOwnership id newOwnerId (HttpResult.err m) s) ∧
        (transferOwnership id newOwnerId (HttpResult.err m) s).error =
          some (serverMessageOr m "Failed to transfer ownership")) ∧
    (∀ (id : Nat) (m : Option String) (s : LinkState),
      failFrame s (getLinkStats id (HttpResult.err m) s) ∧
        (getLinkStats id (HttpResult.err m) s).error =
          some (serverMessageOr m "Failed to fetch stats")) ∧
    (∀ (sc : String) (m : Option String) (s : LinkState),
      failFrame s (accessLink sc (HttpResult.err m) s) ∧
        (accessLink sc (HttpResult.err m) s).error =
          some (serverMessageOr m "Link not found")) ∧
    (∀ (sc : String) (m : Option String) (s : LinkState),
      failFrame s (getRedirectUrl sc (HttpResult.err m) s) ∧
        (getRedirectUrl sc (HttpResult.err m) s).error =
          some (serverMessageOr m "Link not found")) ∧
    (∀ (p : Option PaginationParams) (m : Option String) (s : LinkState),
      failFrame s (searchAllLinks p (HttpResult.err m) s) ∧
        (searchAllLinks p (HttpResult.err m) s).error =
          some (serverMessageOr m "Failed to search links")) ∧
    (∀ (sc : String) (m : Option String) (s : LinkState),
      failFrame s (disableLinkByShortCode sc (HttpResult.err m) s) ∧
        (disableLinkByShortCode sc (HttpResult.err m) s).error =
          some (serverMessageOr m "Failed to disable link")) ∧
    (∀ (sc : String) (m : Option String) (s : LinkState),
      failFrame s (viewLinkByShortCode sc (HttpResult.err m) s) ∧
        (viewLinkByShortCode sc (HttpResult.err m) s).error =
          some (serverMessageOr m "Failed to view link")) ∧
    (∀ (msg fb : String), msg ≠ "" → serverMessageOr (some msg) fb = msg) ∧
    (∀ fb : String, serverMessageOr none fb = fb) := by
  refine ⟨?_, ?_, ?_, ?_, ?_, ?_, ?_, ?_, ?_, ?_, ?_, ?_, ?_, ?_⟩
  · exact fun _ _ _ => ⟨⟨rfl, rfl, rfl, rfl⟩, rfl⟩
  · exact fun _ _ _ => ⟨⟨rfl, rfl, rfl, rfl⟩, rfl⟩
  · exact fun _ _ _ => ⟨⟨rfl, rfl, rfl, rfl⟩, rfl⟩
  · exact fun _ _ _ _ => ⟨⟨rfl, rfl, rfl, rfl⟩, rfl⟩
  · exact fun _ _ _ => ⟨⟨rfl, rfl, rfl, rfl⟩, rfl⟩
  · exact fun _ _ _ _ => ⟨⟨rfl, rfl, rfl, rfl⟩, rfl⟩
  · exact fun _ _ _ => ⟨⟨rfl, rfl, rfl, rfl⟩, rfl⟩
  · exact fun _ _ _ => ⟨⟨rfl, rfl, rfl, rfl⟩, rfl⟩
  · exact fun _ _ _ => ⟨⟨rfl, rfl, rfl, rfl⟩, rfl⟩
  · exact fun _ _ _ => ⟨⟨rfl, rfl, rfl, rfl⟩, rfl⟩
  · exact fun _ _ _ => ⟨⟨rfl, rfl, rfl, rfl⟩, rfl⟩
  · exact fun _ _ _ => ⟨⟨rfl, rfl, rfl, rfl⟩, rfl⟩
  · intro msg fb h
    simp [serverMessageOr, h]
  · exact fun _ => rfl

/-- Witness for C1 at a concrete failing call: a create failure with server
message "boom" keeps the two cached links and reports "boom"; a delete
failure with no server message reports the fallback. -/
theorem C1_failure_preserves_state_witness :
    ("boom" : String) ≠ "" ∧
      (createLink Samples.sampleDto (HttpResult.err (some "boom"))
          Samples.sampleState).links = Samples.sampleState.links ∧
      (createLink Samples.sampleDto (HttpResult.err (some "boom"))
          Samples.sampleState).error = some "boom" ∧
      (deleteLink 1 (HttpResult.err none) Samples.sampleState).error =
        some "Failed to delete link" := by
  have h := C1_failure_preserves_state
  have hmsg : serverMessageOr (some "boom") "Failed to create link" = "boom" :=
    h.2.2.2.2.2.2.2.2.2.2.2.2.1 "boom" "Failed to create link" (by decide)
  have hc := h.1 Samples.sampleDto (some "boom") Samples.sampleState
  have hd := h.2.2.2.2.1 1 none Samples.sampleState
  exact ⟨by decide, hc.1.1, by rw [hc.2, hmsg], hd.2⟩

/-- C2: on success, `createLink` prepends the server's record to `links`;
`updateLink` replaces exactly the entries whose id matches (stated
position by position over the list) and does the same for a matching
`currentLink`; `deleteLink` keeps exactly the entries with a different id,
as a subsequence of the original list. -/
theorem C2_success_patches_list :
    (∀ (d : CreateLinkDto) (newLink : LinkEntry) (s : LinkState),
      (createLink d (HttpResult.ok newLink) s).links = newLink :: s.links) ∧
    (∀ (id : Nat) (d : UpdateLinkDto) (u : LinkEntry) (s : LinkState),
      (∀ i : Nat,
        ((updateLink id d (HttpResult.ok u) s).links)[i]? =
          (s.links[i]?).map fun l => if l.id = id then u else l) ∧
      (∀ c, s.currentLink = some c →
        (updateLink id d (HttpResult.ok u) s).currentLink =
          some (if c.id = id then u else c)) ∧
      (s.currentLink = none →
        (updateLink id d (HttpResult.ok u) s).currentLink = none)) ∧
    (∀ (id : Nat) (s : LinkState),
      (∀ l : LinkEntry,
        l ∈ (deleteLink id (HttpResult.ok ()) s).links ↔
          l ∈ s.links ∧ l.id ≠ id) ∧
      (deleteLink id (HttpResult.ok ()) s).links.Sublist s.links) := by
  refine ⟨fun _ _ _ => rfl, ?_, ?_⟩
  · intro id d u s
    refine ⟨?_, ?_, ?_⟩
    · intro i
      simp [updateLink, startLoading]
    · intro c hc
      simp [updateLink, startLoading, hc]
      split <;> simp_all
    · intro hc
      simp [updateLink, startLoading, hc]
  · intro id s
    refine ⟨?_, ?_⟩
    · intro l
      simp [deleteLink, startLoading]
    · exact List.filter_sublist _

/-- Witness for C2's hypothesised clauses on the concrete sample state:
updating link 1 replaces `currentLink` (which holds link 1), and the claim
clauses evaluate as stated at position 0. -/
theorem C2_success_patches_list_witness :
    Samples.sampleState.currentLink = some Samples.sampleLink ∧
      (updateLink 1 Samples.sampleUpdateDto
          (HttpResult.ok Samples.sampleLink2) Samples.sampleState).currentLink =
        some (if Samples.sampleLink.id = 1 then Samples.sampleLink2
          else Samples.sampleLink) := by
  have h :=
    (C2_success_patches_list.2.1 1 Samples.sampleUpdateDto
        Samples.sampleLink2 Samples.sampleState).2.1
      Samples.sampleLink rfl
  exact ⟨rfl, h⟩

/-- C9: every asynchronous store operation starts from
`set(\x7b isLoading: true, error: null \x7d)` (all twelve operations are
defined through `startLoading`, which sets exactly that), and whatever the
HTTP outcome, the settled state has `isLoading = false`. -/
theorem C9_loading_discipline :
    (∀ s : LinkState,
      (startLoading s).isLoading = true ∧ (startLoading s).error = none) ∧
    (∀ (d : CreateLinkDto) (r : HttpResult LinkEntry) (s : LinkState),
      (createLink d r s).isLoading = false) ∧
    (∀ (p : Option PaginationParams) (r : HttpResult (List LinkEntry))
        (s : LinkState), (getUserLinks p r s).isLoading = false) ∧
    (∀ (id : Nat) (r : HttpResult LinkEntry) (s : LinkState),
      (getLinkById id r s).isLoading = false) ∧
    (∀ (id : Nat) (d : UpdateLinkDto) (r : HttpResult LinkEntry)
        (s : LinkState), (updateLink id d r s).isLoading = false) ∧
    (∀ (id : Nat) (r : HttpResult Unit) (s : LinkState),
      (deleteLink id r s).isLoading = false) ∧
    (∀ (id newOwnerId : Nat) (r : HttpResult LinkEntry) (s : LinkState),
      (transferOwnership id newOwnerId r s).isLoading = false) ∧
    (∀ (id : Nat) (r : HttpResult LinkStats) (s : LinkState),
      (getLinkStats id r s).isLoading = false) ∧
    (∀ (sc : String) (r : HttpResult LinkAccessResponse) (s : LinkState),
      (accessLink sc r s).isLoading = false) ∧
    (∀ (sc : String) (r : HttpResult String) (s : LinkState),
      (getRedirectUrl sc r s).isLoading = false) ∧
    (∀ (p : Option PaginationParams) (r : HttpResult (List LinkEntry))
        (s : LinkState), (searchAllLinks p r s).isLoading = false) ∧
    (∀ (sc : String) (r : HttpResult LinkEntry) (s : LinkState),
      (disableLinkByShortCode sc r s).isLoading = false) ∧
    (∀ (sc : String) (r : HttpResult LinkEntry) (s : LinkState),
      (viewLinkByShortCode sc r s).isLoading = false) := by
  refine ⟨fun _ => ⟨rfl, rfl⟩, ?_, ?_, ?_, ?_, ?_, ?_, ?_, ?_, ?_, ?_, ?_, ?_⟩
  · exact fun _ r _ => by cases r <;> rfl
  · exact fun _ r _ => by cases r <;> rfl
  · exact fun _ r _ => by cases r <;> rfl
  · exact fun _ _ r _ => by cases r <;> rfl
  · exact fun _ r _ => by cases r <;> rfl
  · exact fun _ _ r _ => by cases r <;> rfl
  · exact fun _ r _ => by cases r <;> rfl
  · exact fun _ r _ => by cases r <;> rfl
  · exact fun _ r _ => by cases r <;> rfl
  · exact fun _ r _ => by cases r <;> rfl
  · exact fun _ r _ => by cases r <;> rfl
  · exact fun _ r _ => by cases r <;> rfl

/-- C10: `setPagination` merges key by key — a key present in the argument
overwrites, an absent key keeps its previous value — and leaves `links`,
`currentLink`, `isLoading`, `error` and `totalCount` unchanged. -/
theorem C10_setPagination_merges :
    ∀ (p : PaginationParams) (s : LinkState),
      ((∀ v, p.max = some v → (setPagination p s).pagination.max = some v) ∧
        (p.max = none →
          (setPagination p s).pagination.max = s.pagination.max)) ∧
      ((∀ v, p.offset = some v →
          (setPagination p s).pagination.offset = some v) ∧
        (p.offset = none →
          (setPagination p s).pagination.offset = s.pagination.offset)) ∧
      ((∀ v, p.sort = some v → (setPagination p s).pagination.sort = some v) ∧
        (p.sort = none →
          (setPagination p s).pagination.sort = s.pagination.sort)) ∧
      ((∀ v, p.order = some v →
          (setPagination p s).pagination.order = some v) ∧
        (p.order = none →
          (setPagination p s).pagination.order = s.pagination.order)) ∧
      (setPagination p s).links = s.links ∧
      (setPagination p s).currentLink = s.currentLink ∧
      (setPagination p s).isLoading = s.isLoading ∧
      (setPagination p s).error = s.error ∧
      (setPagination p s).totalCount = s.totalCount := by
  intro p s
  refine ⟨⟨?_, ?_⟩, ⟨?_, ?_⟩, ⟨?_, ?_⟩, ⟨?_, ?_⟩, rfl, rfl, rfl, rfl, rfl⟩ <;>
    first
      | intro v hv
        simp [setPagination, mergePagination, hv]
      | intro hv
        simp [setPagination, mergePagination, hv]

/-- Witness for C10 at a concrete merge: setting only `offset := 10` on the
sample state keeps `max = 50` and updates the offset. -/
theorem C10_setPagination_merges_witness :
    (setPagination
        { max := none, offset := some 10, sort := none, order := none }
        Samples.sampleState).pagination.offset = some 10 ∧
      (setPagination
          { max := none, offset := some 10, sort := none, order := none }
          Samples.sampleState).pagination.max =
        Samples.sampleState.pagination.max := by
  have h := C10_setPagination_merges
    { max := none, offset := some 10, sort := none, order := none }
    Samples.sampleState
  exact ⟨h.2.1.1 10 rfl, h.1.2 rfl⟩

/-- Two concrete states equal except for `pagination.offset`;
both have `pagination.max = some 50`. -/
def offsetStateA : LinkState :=
  { initialState with
    pagination := { max := some 50, offset := some 0, sort := none,
                    order := none } }

/-- As `offsetStateA` but with offset 25. -/
def offsetStateB : LinkState :=
  { offsetStateA with
    pagination := { offsetStateA.pagination with offset := some 25 } }

/-- C5 as stated is false: the persisted snapshot is not a function of the
page size alone — two states with the same `pagination.max` but different
`pagination.offset` yield different snapshots, so the offset is persisted
too. -/
theorem C5_snapshot_not_max_only :
    offsetStateA.pagination.max = offsetStateB.pagination.max ∧
      persistSlice offsetStateA ≠ persistSlice offsetStateB := by
  exact ⟨rfl, by decide⟩

/-- C5 amended: the snapshot the persist middleware writes is exactly the
full `pagination` object (max, offset, sort and order all included), and
nothing else — it is fully determined by `pagination`, so `links`,
`currentLink`, `isLoading`, `error` and `totalCount` are absent from it. -/
theorem C5_snapshot_is_pagination :
    (∀ s : LinkState, (persistSlice s).pagination = s.pagination) ∧
      ∀ s1 s2 : LinkState, s1.pagination = s2.pagination →
        persistSlice s1 = persistSlice s2 := by
  refine ⟨fun _ => rfl, ?_⟩
  intro s1 s2 h
  simp [persistSlice, h]

/-- Witness for C5's amended statement on two concrete states that share a
pagination but differ in every data field. -/
theorem C5_snapshot_is_pagination_witness :
    persistSlice Samples.sampleState =
      persistSlice { initialState with
        pagination := Samples.sampleState.pagination } := by
  exact C5_snapshot_is_pagination.2 Samples.sampleState
    { initialState with pagination := Samples.sampleState.pagination } rfl

end LinkStore

namespace Toast

/-- C7: `showToast` clears any pending auto-dismiss timer before starting
the new one, and afterwards the state shows `open = true` with message,
severity, duration and position equal to the call's arguments; the timer
table again holds at most one pending toast timer (exactly the new one),
and the previously pending timer is no longer pending. -/
theorem C7_showToast_single_timer :
    ∀ (m : String) (sev : ToastSeverity) (dur : Nat) (pos : ToastPosition)
      (s : ToastState) (e : TimerEnv) (s2 : ToastState) (e2 : TimerEnv),
      showToast m sev dur pos s e = (s2, e2) →
      timersConsistent s e →
      s2.isOpen = true ∧ s2.message = m ∧ s2.severity = sev ∧
        s2.duration = dur ∧ s2.position = pos ∧
        timersConsistent s2 e2 ∧ e2.active.length ≤ 1 ∧
        (∀ t, s.timeoutId = some t → t ∉ e2.active) := by
  intro m sev dur pos s e s2 e2 heq hcons
  obtain ⟨hact, hfresh⟩ := hcons
  cases heq
  cases hs : s.timeoutId with
  | none =>
      rw [hs] at hact
      simp only [Option.toList] at hact
      refine ⟨rfl, rfl, rfl, rfl, rfl, ?_, ?_, ?_⟩
      · constructor
        · simp [showToast, hs, setTimeout, hact, Option.toList]
        · intro t ht
          simp only [showToast, hs, setTimeout] at ht ⊢
          simp at ht
          omega
      · simp [showToast, hs, setTimeout, hact]
      · intro t ht
        cases ht
  | some t0 =>
      rw [hs] at hact
      simp only [Option.toList] at hact
      have ht0 : t0 < e.nextId := hfresh t0 hs
      refine ⟨rfl, rfl, rfl, rfl, rfl, ?_, ?_, ?_⟩
      · constructor
        · simp [showToast, hs, setTimeout, clearTimeout, hact, Option.toList]
        · intro t ht
          simp only [showToast, hs, setTimeout] at ht ⊢
          simp at ht
          omega
      · simp [showToast, hs, setTimeout, clearTimeout, hact]
      · intro t ht
        cases ht
        simp [showToast, hs, setTimeout, clearTimeout, hact]
        omega

/-- Witness for C7 on a concrete store with one pending timer (id 3): the
call replaces the message and the old timer is gone. -/
theorem C7_showToast_single_timer_witness :
    ((showToast "saved" ToastSeverity.success 3000 ToastPosition.topCenter
        { initialToastState with timeoutId := some 3 }
        { nextId := 4, active := [3] }).1.message = "saved") ∧
      ¬ 3 ∈ (showToast "saved" ToastSeverity.success 3000
          ToastPosition.topCenter
          { initialToastState with timeoutId := some 3 }
          { nextId := 4, active := [3] }).2.active := by
  have h := C7_showToast_single_timer "saved" ToastSeverity.success 3000
    ToastPosition.topCenter
    { initialToastState with timeoutId := some 3 }
    { nextId := 4, active := [3] }
    _ _ rfl ⟨rfl, by intro t ht; cases ht; decide⟩
  exact ⟨h.2.1, h.2.2.2.2.2.2.2 3 rfl⟩

/-- C8: `hideToast` clears any pending timer and merges
`open = false, timeoutId = null` into the state, leaving message,
severity, duration and position untouched. -/
theorem C8_hideToast_frame :
    ∀ (s : ToastState) (e : TimerEnv) (s2 : ToastState) (e2 : TimerEnv),
      hideToast s e = (s2, e2) →
      s2.isOpen = false ∧ s2.timeoutId = none ∧
        s2.message = s.message ∧ s2.severity = s.severity ∧
        s2.duration = s.duration ∧ s2.position = s.position ∧
        (∀ t, s.timeoutId = some t → t ∉ e2.active) := by
  intro s e s2 e2 heq
  cases heq
  refine ⟨rfl, rfl, rfl, rfl, rfl, rfl, ?_⟩
  intro t ht
  simp only [hideToast, ht]
  intro hmem
  have := List.of_mem_filter hmem
  simp at this

/-- Witness for C8 on a concrete visible toast with a pending timer. -/
theorem C8_hideToast_frame_witness :
    (hideToast
        { isOpen := true, message := "hello",
          severity := ToastSeverity.warning, duration := 2000,
          position := ToastPosition.bottomLeft, timeoutId := some 9 }
        { nextId := 10, active := [9] }).1.message = "hello" ∧
      ¬ 9 ∈ (hideToast
          { isOpen := true, message := "hello",
            severity := ToastSeverity.warning, duration := 2000,
            position := ToastPosition.bottomLeft, timeoutId := some 9 }
          { nextId := 10, active := [9] }).2.active := by
  have h := C8_hideToast_frame
    { isOpen := true, message := "hello",
      severity := ToastSeverity.warning, duration := 2000,
      position := ToastPosition.bottomLeft, timeoutId := some 9 }
    { nextId := 10, active := [9] } _ _ rfl
  exact ⟨h.2.2.1, h.2.2.2.2.2.2 9 rfl⟩

end Toast

namespace QR

/-- Two concrete render inputs that differ only in the target URL. -/
def qrInputsA : QRInputs :=
  { size := 256
    errorCorrectionLevel := QRErrorCorrectionLevel.M
    withLogo := false
    qrSubtitle := none
    fullUrl := "https://psu.example/aaa" }

/-- As `qrInputsA` with a different target URL. -/
def qrInputsB : QRInputs :=
  { qrInputsA with fullUrl := "https://psu.example/bbb" }

/-- C4 as stated is false: between `qrInputsA` and `qrInputsB` only the
target URL changes, yet the effect's dependency array is unchanged, so
`generateQRCode` is not re-run (`fullUrl` is missing from the dependency
array at QRCodeGenerator.tsx line 112). -/
theorem C4_url_change_no_rerun :
    qrInputsA.fullUrl ≠ qrInputsB.fullUrl ∧
      qrRenderStep qrInputsA qrInputsB = none := by
  refine ⟨by decide, ?_⟩
  simp [qrRenderStep, qrEffectReruns, qrEffectDeps, qrInputsA, qrInputsB]

/-- C4 amended: the effect re-runs `generateQRCode` with the new values
whenever the size, the error-correction level, the logo flag or the
subtitle changes; when all four of those are unchanged — in particular
when only the target URL changes — it does not re-run. -/
theorem C4_rerun_on_option_change :
    (∀ a b : QRInputs,
      (a.size ≠ b.size ∨ a.errorCorrectionLevel ≠ b.errorCorrectionLevel ∨
        a.withLogo ≠ b.withLogo ∨ a.qrSubtitle ≠ b.qrSubtitle) →
      qrRenderStep a b = some b) ∧
    (∀ a b : QRInputs,
      a.size = b.size → a.errorCorrectionLevel = b.errorCorrectionLevel →
      a.withLogo = b.withLogo → a.qrSubtitle = b.qrSubtitle →
      qrRenderStep a b = none) := by
  constructor
  · intro a b hdiff
    have hne : qrEffectDeps a ≠ qrEffectDeps b := by
      simp only [qrEffectDeps, ne_eq, Prod.mk.injEq, not_and]
      intro h1 h2 h3
      rcases hdiff with h | h | h | h
      · exact absurd h1 h
      · exact absurd h2 h
      · exact absurd h3 h
      · exact fun h4 => absurd h4 h
    simp [qrRenderStep, qrEffectReruns, hne]
  · intro a b h1 h2 h3 h4
    simp [qrRenderStep, qrEffectReruns, qrEffectDeps, h1, h2, h3, h4]

/-- Witness for C4's amended statement: shrinking the size from 256 to 128
re-runs generation with the new inputs, and a URL-only change does not. -/
theorem C4_rerun_on_option_change_witness :
    qrRenderStep qrInputsA { qrInputsA with size := 128 } =
      some { qrInputsA with size := 128 } ∧
    qrRenderStep qrInputsA qrInputsB = none := by
  constructor
  · exact C4_rerun_on_option_change.1 qrInputsA
      { qrInputsA with size := 128 } (Or.inl (by decide))
  · exact C4_rerun_on_option_change.2 qrInputsA qrInputsB rfl rfl rfl rfl

/-- C6: evaluating `handleCopy` at the failing input — canvas present,
`toBlob` succeeds with a real blob, `navigator.clipboard.write` rejects,
and `writeText` would succeed — the async rejection escapes the
`try/catch`, so the handler neither copies the plain URL nor shows any
toast, contradicting the documented fallback. -/
theorem C6_clipboard_failure_no_fallback :
    handleCopy
        { canvasPresent := true, toBlobThrowsSync := false, blobOk := true,
          clipboardImageOk := false, clipboardTextOk := true } =
      CopyOutcome.unhandledRejection ∧
    handleCopy
        { canvasPresent := true, toBlobThrowsSync := false, blobOk := true,
          clipboardImageOk := false, clipboardTextOk := true } ≠
      CopyOutcome.urlCopied := by
  decide

end QR

namespace Forms

/-- The boolean `.min(1)` length test coincides with "not the empty
string". -/
theorem length_ge_one_eq_ne_empty (u : String) :
    decide (1 ≤ u.length) = !decide (u = "") := by
  by_cases h : u = ""
  · subst h
    decide
  · simp only [decide_eq_false h, Bool.not_false, decide_eq_true_eq]
    rcases u with ⟨data⟩
    cases data with
    | nil => exact absurd (by decide) h
    | cons c cs => simp [String.length]

/-- A well-formed edit submission that the claim accepts but
`editLinkSchema` rejects: the URL is valid and no dates are set, yet the
`enabled` and `withLogo` keys are absent. -/
def formMissingFlags : LinkFormInput :=
  { originalUrl := some "https://example.com"
    description := none
    enabled := none
    startDateTime := none
    endDateTime := none
    withLogo := none
    qrSubtitle := none }

/-- C3 as stated is false: `editLinkSchema` rejects a submission whose URL
is a valid non-empty absolute URL and whose dates are absent, merely
because the `enabled` and `withLogo` keys are missing — in the edit schema
those are non-optional `z.boolean()` fields. -/
theorem C3_edit_schema_requires_flags :
    specFormAccepts sampleUrlCheck formMissingFlags = true ∧
      editLinkSchemaAccepts sampleUrlCheck formMissingFlags = false := by
  decide

/-- C3 amended: `linkSchema` accepts exactly the submissions the claim
describes (non-empty absolute URL plus the ordered-dates rule, nothing
else), while `editLinkSchema` accepts exactly those submissions that
additionally carry present `enabled` and `withLogo` boolean fields. -/
theorem C3_schemas_characterised :
    (∀ (f : String → Bool) (inp : LinkFormInput),
      linkSchemaAccepts f inp = specFormAccepts f inp) ∧
    (∀ (f : String → Bool) (inp : LinkFormInput),
      editLinkSchemaAccepts f inp = true ↔
        specFormAccepts f inp = true ∧ inp.enabled.isSome = true ∧
          inp.withLogo.isSome = true) := by
  constructor
  · intro f inp
    cases hu : inp.originalUrl with
    | none => simp [linkSchemaAccepts, specFormAccepts, hu]
    | some u =>
        simp only [linkSchemaAccepts, specFormAccepts, hu,
          length_ge_one_eq_ne_empty]
  · intro f inp
    cases hu : inp.originalUrl with
    | none => simp [editLinkSchemaAccepts, specFormAccepts, hu]
    | some u =>
        simp only [editLinkSchemaAccepts, specFormAccepts, hu,
          length_ge_one_eq_ne_empty, Bool.and_eq_true]
        tauto

end Forms
